import Mathlib

/-!
Verification of the lia VM orchestrator control plane against its
natural-language specification.  The definitions below are shallow
embeddings of the Rust source:

* `src/services/vm-api/src/models.rs` — data model (statuses, frames, stages)
* `src/api/src/ws.rs`, `src/services/vm-api/src/ws.rs` — fanout registry
* `src/api/src/handlers.rs`, `src/services/vm-api/src/handlers.rs` — controller
* `src/api/src/qemu.rs`, `src/services/vm-api/src/firecracker.rs` — drivers
* `src/api/src/vsock.rs`, `src/services/vm-api/src/vsock.rs` — relay
* `src/services/vm-api/src/db.rs` — store interface

Machine integers (u32 counters, i64 timestamps) are modelled as `Nat`/`Int`;
every modelled counter is proved bounded far below `2^32`, so wrap-around
never occurs in the modelled runs.  Stateful code is modelled by explicit
state passing; fallible code returns `Except`.
-/

namespace Lia

/-- Task status enumeration, `TaskStatus` in `models.rs`. -/
inductive TaskStatus where
  | pending
  | starting
  | running
  | suspended
  | terminated
deriving DecidableEq

/-- Boot progress stages, `BootStage` in `models.rs`. -/
inductive BootStage where
  | creatingVm
  | waitingForSocket
  | configuringVm
  | bootingVm
  | connectingAgent
  | initializingClaude
  | ready
deriving DecidableEq, Fintype

/-- Human-readable message for a boot stage, `BootStage::message` in `models.rs`. -/
def BootStage.message : BootStage → String
  | .creatingVm => "Starting VM..."
  | .waitingForSocket => "Starting VM..."
  | .configuringVm => "Configuring VM..."
  | .bootingVm => "Booting..."
  | .connectingAgent => "Connecting..."
  | .initializingClaude => "Initializing Claude..."
  | .ready => "Ready"

/-- WebSocket frame type, `WsMessage` in `models.rs`. -/
inductive WsMessage where
  | output (data : String) (timestamp : Int)
  | input (data : String)
  | status (status : TaskStatus) (exit_code : Option Int)
  | progress (stage : BootStage) (message : String)
  | error (message : String)
  | ping
  | pong
deriving DecidableEq

/-- Guest protocol frame type, `VsockMessage` in `models.rs`. -/
inductive VsockMessage where
  | init (api_key : String) (prompt : String) (files : Option (List (String × String)))
  | output (data : String)
  | input (data : String)
  | exit (code : Int)
  | error (message : String)
  | heartbeat
deriving DecidableEq

/-- Discriminates the `Output` variant, the `matches!(msg, WsMessage::Output { .. })`
test in `TaskChannel::send` (`ws.rs`). -/
def isOutputMsg : WsMessage → Bool
  | .output _ _ => true
  | _ => false

/-- Per-task fanout channel of the api service, `TaskChannel` in `src/api/src/ws.rs`.
`buffer` is the replay buffer (`output_buffer`), `subs` holds the pending queue of
every live broadcast subscriber, `inputSenderSet` is whether `input_sender` holds a
sender, and `inputQueue` is the content of the bounded mpsc channel drained by the
relay writer pump. -/
structure TaskChannel where
  buffer : List WsMessage
  subs : List (List WsMessage)
  inputSenderSet : Bool
  inputQueue : List String
deriving DecidableEq

/-- Fresh channel, `TaskChannel::new` in `src/api/src/ws.rs`: empty buffer, no
subscribers yet, no input sender. -/
def TaskChannel.new : TaskChannel :=
  { buffer := [], subs := [], inputSenderSet := false, inputQueue := [] }

/-- Sending a frame, `TaskChannel::send` in `ws.rs` (identical in both services):
an Output frame is appended to the replay buffer before the broadcast; every frame
is broadcast to all live subscribers (send errors with no subscribers are ignored). -/
def TaskChannel.send (c : TaskChannel) (msg : WsMessage) : TaskChannel :=
  { c with
    buffer := if isOutputMsg msg then c.buffer ++ [msg] else c.buffer,
    subs := c.subs.map (fun q => q ++ [msg]) }

/-- Registering the relay input sender, `TaskChannel::set_input_sender` in
`src/api/src/ws.rs`. -/
def TaskChannel.set_input_sender (c : TaskChannel) : TaskChannel :=
  { c with inputSenderSet := true }

/-- Forwarding input to the VM, `TaskChannel::send_input` in `src/api/src/ws.rs`:
if a sender is registered the text is pushed into the mpsc queue and `true` is
returned, otherwise nothing happens and `false` is returned. -/
def TaskChannel.send_input (c : TaskChannel) (data : String) : TaskChannel × Bool :=
  if c.inputSenderSet then
    ({ c with inputQueue := c.inputQueue ++ [data] }, true)
  else
    (c, false)

/-- Folding `send` over a list of frames. -/
def TaskChannel.sendAll (c : TaskChannel) (msgs : List WsMessage) : TaskChannel :=
  msgs.foldl TaskChannel.send c

/-- Per-task fanout channel of the vm-api service, `TaskChannel` in
`src/services/vm-api/src/ws.rs`.  Unlike the api variant it has no input sender
slot at all: only the replay buffer and the broadcast sender. -/
structure VmTaskChannel where
  buffer : List WsMessage
  subs : List (List WsMessage)
deriving DecidableEq

/-- Fresh vm-api channel, `TaskChannel::new` in `src/services/vm-api/src/ws.rs`. -/
def VmTaskChannel.new : VmTaskChannel := { buffer := [], subs := [] }

/-- Sending a frame on a vm-api channel, `TaskChannel::send` in
`src/services/vm-api/src/ws.rs` (same body as the api variant). -/
def VmTaskChannel.send (c : VmTaskChannel) (msg : WsMessage) : VmTaskChannel :=
  { c with
    buffer := if isOutputMsg msg then c.buffer ++ [msg] else c.buffer,
    subs := c.subs.map (fun q => q ++ [msg]) }

/-- Lower-case hexadecimal digit, as used by the serde_json escape table. -/
def hexDigitChar (n : Nat) : Char :=
  if n < 10 then Char.ofNat (48 + n) else Char.ofNat (87 + n)

/-- Escape of one character inside a JSON string, following serde_json:
quote and backslash get a backslash escape, the short control escapes
are used for backspace, form feed, newline, carriage return and tab, any
other control character becomes a four-digit `\u` escape, and everything
else passes through. -/
def jsonEscapeChar (c : Char) : String :=
  if c = '"' then "\\\""
  else if c = '\\' then "\\\\"
  else if c = '\x08' then "\\b"
  else if c = '\x0c' then "\\f"
  else if c = '\n' then "\\n"
  else if c = '\r' then "\\r"
  else if c = '\t' then "\\t"
  else if c.toNat < 32 then
    "\\u00" ++ String.singleton (hexDigitChar (c.toNat / 16))
            ++ String.singleton (hexDigitChar (c.toNat % 16))
  else String.singleton c

/-- JSON string literal for `s`, serde_json style. -/
def jsonStringLit (s : String) : String :=
  "\"" ++ String.join (s.data.map jsonEscapeChar) ++ "\""

/-- Serialization of `VsockMessage::Input { data }` by serde_json with the
`tag = "type", rename_all = "lowercase"` attributes of `models.rs`: the tag
field first, then the data field. -/
def serialize_vsock_input (data : String) : String :=
  "\x7b\"type\":\"input\",\"data\":" ++ jsonStringLit data ++ "\x7d"

/-- One iteration of the relay writer pump (`src/api/src/vsock.rs`): each queued
input is serialized as a `VsockMessage::Input` JSON object followed by a newline
and written to the guest socket, in queue order. -/
def writer_pump_lines (queue : List String) : List String :=
  queue.map (fun d => serialize_vsock_input d ++ "\n")

/-- Processing of one parsed client frame by `handle_ws` in
`src/api/src/handlers.rs` (lines 396-420): an Input frame is forwarded through
`TaskChannel::send_input`, a Ping is answered by sending Pong on the broadcast
channel, every other variant is ignored. -/
def handle_ws_client_frame (c : TaskChannel) : WsMessage → TaskChannel
  | WsMessage.input d => (TaskChannel.send_input c d).1
  | WsMessage.ping => TaskChannel.send c WsMessage.pong
  | _ => c

/-- Folding the api `handle_ws` client loop over a list of received frames. -/
def handle_ws_client_frames (c : TaskChannel) (fs : List WsMessage) : TaskChannel :=
  fs.foldl handle_ws_client_frame c

/-- Processing of one parsed client frame by `handle_ws` in
`src/services/vm-api/src/handlers.rs` (lines 313-335): an Input frame is only
logged (the comment in the source reads: this would need the input_tx stored
somewhere), a Ping is answered with Pong, everything else is ignored. -/
def vm_handle_ws_client_frame (c : VmTaskChannel) : WsMessage → VmTaskChannel
  | WsMessage.input _ => c
  | WsMessage.ping => VmTaskChannel.send c WsMessage.pong
  | _ => c

/-- Folding the vm-api `handle_ws` client loop over a list of received frames. -/
def vm_handle_ws_client_frames (c : VmTaskChannel) (fs : List WsMessage) : VmTaskChannel :=
  fs.foldl vm_handle_ws_client_frame c

/-- Data payloads of the Input frames of a frame list, in order. -/
def inputDatas (fs : List WsMessage) : List String :=
  fs.filterMap (fun m => match m with | WsMessage.input d => some d | _ => none)

theorem sendAll_buffer (msgs : List WsMessage) :
    ∀ c : TaskChannel,
      (TaskChannel.sendAll c msgs).buffer = c.buffer ++ msgs.filter isOutputMsg := by
  induction msgs with
  | nil => intro c; simp [TaskChannel.sendAll]
  | cons m ms ih =>
    intro c
    simp only [TaskChannel.sendAll, List.foldl_cons] at *
    rw [ih]
    by_cases h : isOutputMsg m <;>
      simp [TaskChannel.send, h, List.filter_cons]

/-- Claim C4 (confirmed): the replay buffer of a TaskChannel contains exactly the
Output frames sent on it since creation, in send order — for every sequence of
frames pushed through `TaskChannel::send` starting from `TaskChannel::new`, the
buffer equals the Output-subsequence of the sent frames, and it never contains a
Progress, Status, Error, Input, Ping or Pong frame. -/
theorem replay_buffer_exactly_outputs (msgs : List WsMessage) :
    (TaskChannel.sendAll TaskChannel.new msgs).buffer = msgs.filter isOutputMsg ∧
    ∀ m ∈ (TaskChannel.sendAll TaskChannel.new msgs).buffer, isOutputMsg m = true := by
  have hb : (TaskChannel.sendAll TaskChannel.new msgs).buffer = msgs.filter isOutputMsg := by
    simpa [TaskChannel.new] using sendAll_buffer msgs TaskChannel.new
  refine ⟨hb, ?_⟩
  intro m hm
  rw [hb] at hm
  exact (List.mem_filter.mp hm).2

/-- Claim C10 (confirmed): a Ping frame received from one WebSocket client makes
`handle_ws` send a Pong through the task broadcast channel, so the Pong is
appended to the pending queue of every live subscriber, and since Pong is not an
Output variant it is never appended to the replay buffer. -/
theorem ping_pong_broadcast (c : TaskChannel) :
    handle_ws_client_frame c WsMessage.ping = TaskChannel.send c WsMessage.pong ∧
    (handle_ws_client_frame c WsMessage.ping).buffer = c.buffer ∧
    (handle_ws_client_frame c WsMessage.ping).subs
      = c.subs.map (fun q => q ++ [WsMessage.pong]) := by
  refine ⟨rfl, ?_, ?_⟩ <;>
    simp [handle_ws_client_frame, TaskChannel.send, isOutputMsg]

theorem handle_ws_frames_input_queue (fs : List WsMessage) :
    ∀ c : TaskChannel, c.inputSenderSet = true →
      (handle_ws_client_frames c fs).inputSenderSet = true ∧
      (handle_ws_client_frames c fs).inputQueue = c.inputQueue ++ inputDatas fs := by
  induction fs with
  | nil => intro c h; simp [handle_ws_client_frames, inputDatas, h]
  | cons f fs ih =>
    intro c h
    have hstep : (handle_ws_client_frame c f).inputSenderSet = true ∧
        (handle_ws_client_frame c f).inputQueue = c.inputQueue ++ inputDatas [f] := by
      cases f <;>
        simp [handle_ws_client_frame, TaskChannel.send_input, TaskChannel.send,
          inputDatas, h]
    have ihx := ih (handle_ws_client_frame c f) hstep.1
    constructor
    · simpa [handle_ws_client_frames] using ihx.1
    · have := ihx.2
      simp only [handle_ws_client_frames, List.foldl_cons] at *
      rw [this, hstep.2]
      cases f <;> simp [inputDatas, List.append_assoc]

/-- Claim C1, amended (in the api service): once the relay has started and the
input sender has been registered on the TaskChannel, every `WsMessage::Input`
frame received by `handle_ws` is pushed through the registered input sender, and
the relay writer pump writes each one to the guest socket as a newline-terminated
`VsockMessage::Input` JSON object, in the order the frames were accepted. -/
theorem input_forwarded_in_order_api (c : TaskChannel) (fs : List WsMessage)
    (h : c.inputSenderSet = true) :
    (handle_ws_client_frames c fs).inputQueue = c.inputQueue ++ inputDatas fs ∧
    writer_pump_lines (handle_ws_client_frames c fs).inputQueue
      = writer_pump_lines c.inputQueue
        ++ (inputDatas fs).map (fun d => serialize_vsock_input d ++ "\n") := by
  have hq := (handle_ws_frames_input_queue fs c h).2
  refine ⟨hq, ?_⟩
  rw [hq]
  simp [writer_pump_lines]

/-- Concrete channel with a registered input sender, for the C1 witness. -/
def c1WitnessChannel : TaskChannel :=
  TaskChannel.set_input_sender TaskChannel.new

/-- Concrete frame sequence for the C1 witness. -/
def c1WitnessFrames : List WsMessage :=
  [WsMessage.input "ls", WsMessage.ping, WsMessage.input "echo hi"]

theorem input_forwarded_in_order_api_witness :
    c1WitnessChannel.inputSenderSet = true ∧
    ((handle_ws_client_frames c1WitnessChannel c1WitnessFrames).inputQueue
        = c1WitnessChannel.inputQueue ++ inputDatas c1WitnessFrames ∧
      writer_pump_lines (handle_ws_client_frames c1WitnessChannel c1WitnessFrames).inputQueue
        = writer_pump_lines c1WitnessChannel.inputQueue
          ++ (inputDatas c1WitnessFrames).map (fun d => serialize_vsock_input d ++ "\n")) :=
  ⟨rfl, input_forwarded_in_order_api c1WitnessChannel c1WitnessFrames rfl⟩

/-- Claim C1, counterexample: in the vm-api service the claim fails.  The vm-api
TaskChannel has no input sender slot and `create_task` drops the relay input
sender (`Ok(_input_tx)`), so `handle_ws` handles a received Input frame by doing
nothing at all: processing `Input "ls"` leaves the channel state identical, and
in particular nothing is passed toward the guest socket. -/
theorem input_not_forwarded_vm_api :
    vm_handle_ws_client_frame VmTaskChannel.new (WsMessage.input "ls")
      = VmTaskChannel.new ∧
    vm_handle_ws_client_frames VmTaskChannel.new [WsMessage.input "ls"]
      = VmTaskChannel.new :=
  ⟨rfl, rfl⟩

/-- Replacement of every space of `k` by a single sentinel character, the
`k.replace(' ', ...)` calls of both drivers. -/
def replaceSpaces (sentinel : Char) (k : String) : String :=
  String.mk (k.data.map (fun c => if c = ' ' then sentinel else c))

/-- SSH key value placed after `lia.ssh_key=` by the firecracker driver
(`src/services/vm-api/src/firecracker.rs`, `configure_vm`): spaces become `+`. -/
def fc_ssh_key_value (k : String) : String := replaceSpaces '+' k

/-- SSH key value placed after `lia.ssh_key=` by the qemu driver
(`src/api/src/qemu.rs`, `create_vm_with_progress`): spaces become `^`. -/
def qemu_ssh_key_value (k : String) : String := replaceSpaces '^' k

/-- Kernel command line fragment for the SSH key in the firecracker driver:
empty when no key is given (`unwrap_or_default`). -/
def fc_ssh_key_arg : Option String → String
  | some k => " lia.ssh_key=" ++ fc_ssh_key_value k
  | none => ""

/-- Kernel command line fragment for the SSH key in the qemu driver. -/
def qemu_ssh_key_arg : Option String → String
  | some k => " lia.ssh_key=" ++ qemu_ssh_key_value k
  | none => ""

theorem map_eq_map_mem {α β : Type} (f g : α → β) :
    ∀ l : List α, l.map f = l.map g ↔ ∀ a ∈ l, f a = g a := by
  intro l
  induction l with
  | nil => simp
  | cons a l ih => simp [ih]

/-- Claim C2, counterexample: the two drivers do not use the same sentinel.  On
the key `ssh-ed25519 AAAA user@host` the firecracker driver produces the
`lia.ssh_key=` value with `+` where the qemu driver produces it with `^`, so the
two values are different. -/
theorem ssh_key_sentinels_disagree :
    fc_ssh_key_value "ssh-ed25519 AAAA user@host" = "ssh-ed25519+AAAA+user@host" ∧
    qemu_ssh_key_value "ssh-ed25519 AAAA user@host" = "ssh-ed25519^AAAA^user@host" ∧
    fc_ssh_key_value "ssh-ed25519 AAAA user@host"
      ≠ qemu_ssh_key_value "ssh-ed25519 AAAA user@host" :=
  ⟨rfl, rfl, by decide⟩

/-- Claim C2, amended: each driver encodes the SSH key for the kernel command
line by replacing every space with its own single sentinel character — `+` in
the firecracker (microvm) driver, `^` in the qemu (sysemu) driver — and the two
`lia.ssh_key=` values coincide exactly when the key contains no space. -/
theorem ssh_key_encoding_per_driver (k : String) :
    fc_ssh_key_arg (some k) = " lia.ssh_key=" ++ replaceSpaces '+' k ∧
    qemu_ssh_key_arg (some k) = " lia.ssh_key=" ++ replaceSpaces '^' k ∧
    (fc_ssh_key_value k = qemu_ssh_key_value k ↔ ' ' ∉ k.data) := by
  refine ⟨rfl, rfl, ?_⟩
  rw [show fc_ssh_key_value k = qemu_ssh_key_value k ↔
        (fc_ssh_key_value k).data = (qemu_ssh_key_value k).data from String.ext_iff]
  show k.data.map _ = k.data.map _ ↔ _
  rw [map_eq_map_mem]
  constructor
  · intro h hspace
    have := h ' ' hspace
    simp at this
  · intro h c hc
    have hne : c ≠ ' ' := fun e => h (e ▸ hc)
    simp [hne]

theorem ssh_key_encoding_per_driver_witness :
    fc_ssh_key_value "abc" = qemu_ssh_key_value "abc" :=
  (ssh_key_encoding_per_driver "abc").2.2.mpr (by decide)

/-- One call of `allocate_ip` (`src/api/src/qemu.rs` lines 230-241, identical in
`src/services/vm-api/src/firecracker.rs` lines 97-108) on the `next_ip` counter:
`fetch_add(1)` yields the old value and increments the counter; when the fetched
value exceeds 254 the counter is overwritten with 101 and 100 is returned.  The
result is the returned last octet together with the new counter value.  The
counter is a `u32`; the bound proved in `allocStateAt_bounds` keeps the modelled
runs far below `2^32`, so `Nat` arithmetic agrees with the machine arithmetic. -/
def allocStep (s : Nat) : Nat × Nat :=
  if 254 < s then (100, 101) else (s, s + 1)

/-- Counter value before the n-th call; the `VmManager` constructor starts
`next_ip` at 100. -/
def allocStateAt : Nat → Nat
  | 0 => 100
  | n + 1 => (allocStep (allocStateAt n)).2

/-- Last octet returned by the n-th `allocate_ip` call. -/
def allocOctetAt (n : Nat) : Nat := (allocStep (allocStateAt n)).1

/-- Address string returned by the n-th `allocate_ip` call. -/
def allocate_ip_at (n : Nat) : String := "172.16.0." ++ toString (allocOctetAt n)

theorem allocOctetAt_eq (n : Nat) :
    allocOctetAt n = if 254 < allocStateAt n then 100 else allocStateAt n := by
  simp only [allocOctetAt, allocStep]
  split <;> rfl

theorem allocStateAt_succ (n : Nat) :
    allocStateAt (n + 1) = if 254 < allocStateAt n then 101 else allocStateAt n + 1 := by
  simp only [allocStateAt, allocStep]
  split <;> rfl

theorem allocStateAt_bounds (n : Nat) : 100 ≤ allocStateAt n ∧ allocStateAt n ≤ 255 := by
  induction n with
  | zero => simp [allocStateAt]
  | succ n ih =>
    rw [allocStateAt_succ]
    split <;> omega

/-- Claim C6 (confirmed): every `allocate_ip` call returns `172.16.0.X` with
`100 ≤ X ≤ 254`; the first call returns octet 100, each successive call returns
the previous octet plus one, and the call right after 254 has been handed out
returns 100 again. -/
theorem allocate_ip_spec (n : Nat) :
    (100 ≤ allocOctetAt n ∧ allocOctetAt n ≤ 254) ∧
    allocOctetAt 0 = 100 ∧
    allocOctetAt (n + 1) = (if allocOctetAt n = 254 then 100 else allocOctetAt n + 1) ∧
    allocate_ip_at n = "172.16.0." ++ toString (allocOctetAt n) := by
  have hb := allocStateAt_bounds n
  have ho := allocOctetAt_eq n
  have ho1 := allocOctetAt_eq (n + 1)
  have hs := allocStateAt_succ n
  refine ⟨?_, rfl, ?_, rfl⟩
  · rw [ho]; split <;> omega
  · rw [ho1, hs, ho]
    split_ifs <;> omega

/-- Stage emission through an optional progress callback, the `report_progress`
closure of both drivers: nothing is emitted when no callback was passed. -/
def emitStage (hasCallback : Bool) (st : BootStage) : List BootStage :=
  if hasCallback then [st] else []

/-- Progress stages reported by `create_vm_with_progress` in `src/api/src/qemu.rs`
as a function of which fallible step first fails: directory/TAP/volume/rootfs
preparation (`prepOk`), the QEMU spawn (`spawnOk`), and the QMP socket wait
(`socketOk`).  ConfiguringVm is reported after preparation, WaitingForSocket
after the spawn, BootingVm after the socket wait. -/
def qemu_create_vm_stages (hasCallback prepOk spawnOk socketOk : Bool) : List BootStage :=
  if prepOk then
    emitStage hasCallback BootStage.configuringVm ++
    (if spawnOk then
      emitStage hasCallback BootStage.waitingForSocket ++
      (if socketOk then emitStage hasCallback BootStage.bootingVm else [])
     else [])
  else []

/-- Whether the qemu driver launch succeeds. -/
def qemu_create_vm_ok (prepOk spawnOk socketOk : Bool) : Bool :=
  prepOk && spawnOk && socketOk

/-- Progress stages reported by `create_vm_with_progress` in
`src/services/vm-api/src/firecracker.rs`: preparation, then the firecracker
spawn, then WaitingForSocket is reported, then the API socket wait (`socketOk`),
then ConfiguringVm, then the API configuration sequence (`configOk`), then
BootingVm.  Note the firecracker driver reports WaitingForSocket before
ConfiguringVm. -/
def fc_create_vm_stages (hasCallback prepOk spawnOk socketOk configOk : Bool) :
    List BootStage :=
  if prepOk then
    (if spawnOk then
      emitStage hasCallback BootStage.waitingForSocket ++
      (if socketOk then
        emitStage hasCallback BootStage.configuringVm ++
        (if configOk then emitStage hasCallback BootStage.bootingVm else [])
       else [])
     else [])
  else []

/-- Progress frames (as stages) emitted on the task channel by the background
launcher of `create_task` in `src/api/src/handlers.rs`: CreatingVm first, then
the qemu driver stages through the forwarded callback, then on driver success
ConnectingAgent, and on relay success InitializingClaude followed by Ready. -/
def api_launcher_stages (prepOk spawnOk socketOk relayOk : Bool) : List BootStage :=
  [BootStage.creatingVm] ++ qemu_create_vm_stages true prepOk spawnOk socketOk ++
  (if qemu_create_vm_ok prepOk spawnOk socketOk then
    [BootStage.connectingAgent] ++
    (if relayOk then [BootStage.initializingClaude, BootStage.ready] else [])
   else [])

/-- Progress frames (as stages) emitted on the task channel by the background
launcher of `create_task` in `src/services/vm-api/src/handlers.rs`: the driver
is invoked through `create_vm`, which passes `None` as the progress callback,
and the launcher itself sends no Progress frame at any point. -/
def vm_api_launcher_stages (prepOk spawnOk socketOk configOk _relayOk : Bool) :
    List BootStage :=
  fc_create_vm_stages false prepOk spawnOk socketOk configOk

/-- Seven boot stages of the specification, in the claimed order. -/
def sevenStages : List BootStage :=
  [BootStage.creatingVm, BootStage.configuringVm, BootStage.waitingForSocket,
   BootStage.bootingVm, BootStage.connectingAgent, BootStage.initializingClaude,
   BootStage.ready]

/-- Claim C5, counterexample: a fully successful launch through the vm-api
service emits no Progress frame at all — its `create_task` calls `create_vm`
with no progress callback and never sends Progress itself — so it does not emit
the seven stages. -/
theorem vm_api_launch_emits_no_progress :
    vm_api_launcher_stages true true true true true = [] ∧
    vm_api_launcher_stages true true true true true ≠ sevenStages := by
  refine ⟨rfl, ?_⟩
  decide

/-- Connection loop of `VsockRelay::start` in `src/api/src/vsock.rs` (the loop
in `src/services/vm-api/src/vsock.rs` counts identically): `env a` tells whether
the a-th connection attempt succeeds.  On success the loop returns the attempt
index together with the number of 100 ms sleeps performed so far; on each
failure the counter is incremented and checked against `MAX_ATTEMPTS = 600`
with a strict greater-than, the error being returned before sleeping, so a
failure only sleeps when the incremented counter is still at most 600.  The
error payload is the total number of sleeps performed. -/
def dialFrom (env : Nat → Bool) (attempts : Nat) : Except Nat (Nat × Nat) :=
  if env (attempts + 1) then Except.ok (attempts + 1, attempts)
  else if h : 600 < attempts + 1 then Except.error attempts
  else dialFrom env (attempts + 1)
termination_by 601 - attempts
decreasing_by simp_wf; omega

/-- Dial phase of `VsockRelay::start`, beginning with zero recorded attempts. -/
def vsock_dial (env : Nat → Bool) : Except Nat (Nat × Nat) := dialFrom env 0

theorem dialFrom_step_fail (env : Nat → Bool) (attempts : Nat)
    (h1 : env (attempts + 1) = false) (h2 : attempts + 1 ≤ 600) :
    dialFrom env attempts = dialFrom env (attempts + 1) := by
  rw [dialFrom.eq_def, h1]
  simp only [Bool.false_eq_true, if_false]
  rw [dif_neg (by omega)]

theorem dialFrom_run_to (env : Nat → Bool) :
    ∀ k attempts, (∀ a, attempts < a → a ≤ attempts + k → env a = false) →
      attempts + k ≤ 600 → dialFrom env attempts = dialFrom env (attempts + k) := by
  intro k
  induction k with
  | zero => intro attempts _ _; rfl
  | succ k ih =>
    intro attempts hall hle
    rw [dialFrom_step_fail env attempts (hall _ (by omega) (by omega)) (by omega)]
    have := ih (attempts + 1) (fun a ha hb => hall a (by omega) (by omega)) (by omega)
    rw [this]
    congr 1
    omega

theorem dialFrom_error_of_all_fail (env : Nat → Bool) :
    ∀ k attempts, attempts + k = 600 →
      (∀ a, attempts < a → a ≤ 601 → env a = false) →
      dialFrom env attempts = Except.error 600 := by
  intro k
  induction k with
  | zero =>
    intro attempts hk hall
    have ha : attempts = 600 := by omega
    subst ha
    have h1 : env 601 = false := hall 601 (by omega) (by omega)
    rw [dialFrom.eq_def]
    simp [h1]
  | succ k ih =>
    intro attempts hk hall
    rw [dialFrom_step_fail env attempts (hall _ (by omega) (by omega)) (by omega)]
    exact ih (attempts + 1) (by omega) (fun a ha hb => hall a (by omega) hb)

theorem dialFrom_ok_of_success (env : Nat → Bool) :
    ∀ k attempts, attempts + k = 601 →
      (∃ a, attempts < a ∧ a ≤ 601 ∧ env a = true) →
      ∃ r, dialFrom env attempts = Except.ok r := by
  intro k
  induction k with
  | zero =>
    intro attempts hk hex
    obtain ⟨a, h1, h2, _⟩ := hex
    omega
  | succ k ih =>
    intro attempts hk hex
    by_cases he : env (attempts + 1) = true
    · exact ⟨(attempts + 1, attempts), by rw [dialFrom.eq_def, he]; simp⟩
    · obtain ⟨a, h1, h2, h3⟩ := hex
      have hne : a ≠ attempts + 1 := fun e => he (e ▸ h3)
      rw [dialFrom_step_fail env attempts (by simpa using he) (by omega)]
      exact ih (attempts + 1) (by omega) ⟨a, by omega, h2, h3⟩

/-- Attempt oracle under which exactly the 601st connection attempt succeeds. -/
def envOnly601 : Nat → Bool := fun a => a == 601

/-- Claim C7, counterexample: all of the first 600 connection attempts fail,
yet `VsockRelay::start` does not return a dial error — the loop checks
`attempts > 600` after incrementing, so it performs a 601st attempt, which here
succeeds after 600 sleeps. -/
theorem dial_600_failures_no_error :
    (∀ a, a < 601 → envOnly601 a = false) ∧
    vsock_dial envOnly601 = Except.ok (601, 600) := by
  constructor
  · intro a ha
    simp only [envOnly601, beq_eq_false_iff_ne]
    omega
  · have hrun := dialFrom_run_to envOnly601 600 0
      (fun a ha hb => by simp only [envOnly601, beq_eq_false_iff_ne]; omega)
      (by omega)
    rw [vsock_dial, hrun]
    rw [dialFrom.eq_def]
    norm_num [envOnly601]

/-- Claim C7, amended: the relay dial loop returns a VmError only after
exhausting 601 connection attempts with 600 sleeps of 100 ms between them (the
source checks `attempts > 600` after incrementing): if any of the first 601
attempts succeeds no dial error is returned and the relay proceeds, and failure
of all 601 attempts yields the error after exactly 600 sleeps. -/
theorem vsock_dial_retry_bound (env : Nat → Bool) :
    ((∀ a, 1 ≤ a → a ≤ 601 → env a = false) → vsock_dial env = Except.error 600) ∧
    ((∃ a, 1 ≤ a ∧ a ≤ 601 ∧ env a = true) → ∃ r, vsock_dial env = Except.ok r) := by
  constructor
  · intro h
    exact dialFrom_error_of_all_fail env 600 0 (by omega) (fun a ha hb => h a (by omega) hb)
  · intro hex
    obtain ⟨a, h1, h2, h3⟩ := hex
    exact dialFrom_ok_of_success env 601 0 (by omega) ⟨a, by omega, h2, h3⟩

theorem vsock_dial_retry_bound_witness :
    vsock_dial (fun _ => false) = Except.error 600 ∧
    (∃ r, vsock_dial envOnly601 = Except.ok r) :=
  ⟨(vsock_dial_retry_bound (fun _ => false)).1 (fun a h1 h2 => rfl),
   (vsock_dial_retry_bound envOnly601).2 ⟨601, by omega, by omega, by decide⟩⟩

/-- API error kinds, `ApiError` in `error.rs`.  Payload messages are kept where
the handler's behaviour depends on them. -/
inductive ApiErrorM where
  | taskNotFound (msg : String)
  | notFound (msg : String)
  | badRequest (msg : String)
  | unauthorized (msg : String)
  | vmError (msg : String)
  | databaseError
  | internalError
  | invalidState (msg : String)
deriving DecidableEq

/-- HTTP status chosen by `IntoResponse for ApiError` in `error.rs`. -/
def ApiErrorM.statusCode : ApiErrorM → Nat
  | .taskNotFound _ => 404
  | .notFound _ => 404
  | .badRequest _ => 400
  | .unauthorized _ => 401
  | .vmError _ => 500
  | .databaseError => 500
  | .internalError => 500
  | .invalidState _ => 409

/-- Machine-readable error code chosen by `IntoResponse for ApiError`. -/
def ApiErrorM.code : ApiErrorM → String
  | .taskNotFound _ => "TASK_NOT_FOUND"
  | .notFound _ => "NOT_FOUND"
  | .badRequest _ => "BAD_REQUEST"
  | .unauthorized _ => "UNAUTHORIZED"
  | .vmError _ => "VM_ERROR"
  | .databaseError => "DATABASE_ERROR"
  | .internalError => "INTERNAL_ERROR"
  | .invalidState _ => "INVALID_STATE"

/-- Character class `[a-zA-Z0-9._-]` of the repository regex in `models.rs`. -/
def isRepoChar (c : Char) : Bool :=
  c.isAlpha || c.isDigit || c == '.' || c == '_' || c == '-'

/-- Repository name validation, `is_valid_repo_format` in `models.rs`: the regex
demands exactly one slash separating two non-empty runs of class characters. -/
def is_valid_repo_format (s : String) : Bool :=
  match s.splitOn "/" with
  | [owner, name] =>
      (owner != "") && (name != "") && owner.data.all isRepoChar && name.data.all isRepoChar
  | _ => false

/-- First repository of the list rejected by `is_valid_repo_format`, matching
the validation loop of `create_task` which returns on the first offender. -/
def firstInvalidRepo : List String → Option String
  | [] => none
  | r :: rs => if is_valid_repo_format r then firstInvalidRepo rs else some r

/-- Fields of `CreateTaskRequest` (`models.rs`) read by the accept-phase
validation and side effects of `create_task`. -/
structure CreateTaskRequest where
  prompt : String
  repositories : List String
  user_id : Option String
  guild_id : Option String
  ssh_public_key : Option String
deriving DecidableEq

/-- Externally visible accept-phase actions of `create_task`. -/
inductive AcceptEffect where
  | dbInsertTask
  | dbInsertGuild
  | dbSetStarting
  | spawnLauncher
deriving DecidableEq

/-- Accept phase of `create_task` (`src/api/src/handlers.rs` lines 33-99 and the
identical `src/services/vm-api/src/handlers.rs` lines 27-83): empty prompt, then
empty repository list, then the first malformed repository are rejected with
BadRequest, all before the task row is inserted; on success the task row is
inserted, the optional guild association is inserted, the status is set to
Starting and the background launcher is spawned. -/
def create_task_accept (req : CreateTaskRequest) : Except ApiErrorM (List AcceptEffect) :=
  if req.prompt = "" then
    Except.error (ApiErrorM.badRequest "Prompt cannot be empty")
  else if req.repositories = [] then
    Except.error (ApiErrorM.badRequest "At least one repository is required")
  else
    match firstInvalidRepo req.repositories with
    | some r => Except.error (ApiErrorM.badRequest ("Invalid repository format: " ++ r))
    | none =>
        Except.ok ([AcceptEffect.dbInsertTask] ++
          (match req.guild_id with
           | some _ => [AcceptEffect.dbInsertGuild]
           | none => []) ++
          [AcceptEffect.dbSetStarting, AcceptEffect.spawnLauncher])

/-- Claim C8 (confirmed): `create_task` rejects a request whose repositories
list is empty with a BadRequest (HTTP 400, code BAD_REQUEST) before any task
row is inserted, even when the prompt is non-empty, in addition to the prompt
and repository-format validation. -/
theorem create_task_rejects_empty_repositories (req : CreateTaskRequest)
    (hp : req.prompt ≠ "") (hr : req.repositories = []) :
    create_task_accept req
      = Except.error (ApiErrorM.badRequest "At least one repository is required") ∧
    (ApiErrorM.badRequest "At least one repository is required").statusCode = 400 ∧
    (ApiErrorM.badRequest "At least one repository is required").code = "BAD_REQUEST" ∧
    ∀ effs, create_task_accept req ≠ Except.ok effs := by
  have heq : create_task_accept req
      = Except.error (ApiErrorM.badRequest "At least one repository is required") := by
    simp [create_task_accept, hp, hr]
  refine ⟨heq, rfl, rfl, ?_⟩
  intro effs hok
  rw [heq] at hok
  exact Except.noConfusion hok

/-- Concrete request for the C8 witness: non-empty prompt, empty repositories. -/
def c8WitnessReq : CreateTaskRequest :=
  { prompt := "hi", repositories := [], user_id := none, guild_id := none,
    ssh_public_key := none }

theorem create_task_rejects_empty_repositories_witness :
    create_task_accept c8WitnessReq
      = Except.error (ApiErrorM.badRequest "At least one repository is required") ∧
    (ApiErrorM.badRequest "At least one repository is required").statusCode = 400 ∧
    (ApiErrorM.badRequest "At least one repository is required").code = "BAD_REQUEST" ∧
    ∀ effs, create_task_accept c8WitnessReq ≠ Except.ok effs :=
  create_task_rejects_empty_repositories c8WitnessReq (by decide) rfl

/-- Claim C5, amended: in the api service, every successful launch (background
launcher reaching relay start successfully) emits exactly the seven stages
CreatingVm, ConfiguringVm, WaitingForSocket, BootingVm, ConnectingAgent,
InitializingClaude, Ready as Progress frames, in that order, each exactly once;
in every outcome each stage is emitted at most once; the vm-api service launcher
emits no Progress frames. -/
theorem api_launch_progress_stages :
    api_launcher_stages true true true true = sevenStages ∧
    (∀ st : BootStage, sevenStages.count st = 1) ∧
    (∀ prepOk spawnOk socketOk relayOk : Bool, ∀ st : BootStage,
      (api_launcher_stages prepOk spawnOk socketOk relayOk).count st ≤ 1) ∧
    (∀ prepOk spawnOk socketOk configOk relayOk : Bool,
      vm_api_launcher_stages prepOk spawnOk socketOk configOk relayOk = []) := by
  refine ⟨rfl, by decide, by decide, by decide⟩

/-- Association-list lookup, modelling `HashMap::get`. -/
def alookup {κ α : Type} [DecidableEq κ] : List (κ × α) → κ → Option α
  | [], _ => none
  | (k2, v) :: rest, k => if k2 = k then some v else alookup rest k

/-- Association-list removal, modelling `HashMap::remove` (keys are unique in
the modelled maps, so removing every binding of the key is equivalent). -/
def aerase {κ α : Type} [DecidableEq κ] : List (κ × α) → κ → List (κ × α)
  | [], _ => []
  | (k2, v) :: rest, k =>
      if k2 = k then aerase rest k else (k2, v) :: aerase rest k

/-- Association-list value update at one key, modelling the SQL `UPDATE ...
WHERE id = $1`. -/
def aupdate {κ α : Type} [DecidableEq κ] : List (κ × α) → κ → (α → α) → List (κ × α)
  | [], _, _ => []
  | (k2, v) :: rest, k, f =>
      (if k2 = k then (k2, f v) else (k2, v)) :: aupdate rest k f

theorem alookup_aerase {κ α : Type} [DecidableEq κ] (l : List (κ × α)) (k : κ) :
    alookup (aerase l k) k = none := by
  induction l with
  | nil => rfl
  | cons p l ih =>
    obtain ⟨k2, v⟩ := p
    simp only [aerase]
    split
    next hp => exact ih
    next hp => simp [alookup, hp, ih]

theorem aerase_aerase {κ α : Type} [DecidableEq κ] (l : List (κ × α)) (k : κ) :
    aerase (aerase l k) k = aerase l k := by
  induction l with
  | nil => rfl
  | cons p l ih =>
    obtain ⟨k2, v⟩ := p
    simp only [aerase]
    split
    next hp => exact ih
    next hp => simp [aerase, hp, ih]

theorem alookup_aupdate {κ α : Type} [DecidableEq κ] (l : List (κ × α)) (k : κ)
    (f : α → α) : alookup (aupdate l k f) k = (alookup l k).map f := by
  induction l with
  | nil => rfl
  | cons p l ih =>
    obtain ⟨k2, v⟩ := p
    simp only [aupdate]
    split
    next hp => simp [alookup, hp]
    next hp => simp [alookup, hp, ih]

theorem aupdate_cons_pos {κ α : Type} [DecidableEq κ] {k2 k : κ} (hp : k2 = k)
    (v : α) (l : List (κ × α)) (f : α → α) :
    aupdate ((k2, v) :: l) k f = (k2, f v) :: aupdate l k f := by
  simp only [aupdate, if_pos hp]

theorem aupdate_cons_neg {κ α : Type} [DecidableEq κ] {k2 k : κ} (hp : ¬k2 = k)
    (v : α) (l : List (κ × α)) (f : α → α) :
    aupdate ((k2, v) :: l) k f = (k2, v) :: aupdate l k f := by
  simp only [aupdate, if_neg hp]

theorem aupdate_twice {κ α : Type} [DecidableEq κ] (l : List (κ × α)) (k : κ)
    (f g : α → α) (h : ∀ v, g (f v) = f v) :
    aupdate (aupdate l k f) k g = aupdate l k f := by
  induction l with
  | nil => rfl
  | cons p l ih =>
    obtain ⟨k2, v⟩ := p
    by_cases hp : k2 = k
    · rw [aupdate_cons_pos hp, aupdate_cons_pos hp, h, ih]
    · rw [aupdate_cons_neg hp, aupdate_cons_neg hp, ih]

/-- One task row of the `tasks` table, the columns `update_task_status` and
`complete_task` in `db.rs` read or write. -/
structure TaskRow where
  status : TaskStatus
  vm_id : Option String
  started_at : Option Nat
  completed_at : Option Nat
  exit_code : Option Int
  error_message : Option String
  ip_address : Option String
deriving DecidableEq

/-- Row transformation of `update_task_status` in `db.rs` (lines 117-141):
`status = $2`, `vm_id = COALESCE($3, vm_id)`, and `started_at` is set to now
only when the new status is `running` and `started_at` is still null. -/
def updateRowStatus (row : TaskRow) (st : TaskStatus) (vmId : Option String)
    (now : Nat) : TaskRow :=
  { row with
    status := st,
    vm_id := match vmId with
      | some v => some v
      | none => row.vm_id,
    started_at :=
      if st = TaskStatus.running ∧ row.started_at = none then some now
      else row.started_at }

/-- The store operation `update_task_status`: the row is looked up by id, the
update is applied, and the updated row is returned; a missing id is a
TaskNotFound error. -/
def update_task_status (db : List (Nat × TaskRow)) (id : Nat) (st : TaskStatus)
    (vmId : Option String) (now : Nat) :
    Except ApiErrorM (TaskRow × List (Nat × TaskRow)) :=
  match alookup db id with
  | none => Except.error (ApiErrorM.taskNotFound (toString id))
  | some row =>
      Except.ok (updateRowStatus row st vmId now,
        aupdate db id (fun r => updateRowStatus r st vmId now))

/-- Per-VM record of the qemu manager, `VmInfo` in `src/api/src/qemu.rs`. -/
structure VmInfoQ where
  vm_id : String
  task_id : Nat
  cid : Nat
  qmp_socket_path : String
  volume_path : String
  log_path : String
  pid_file : String
  pid : Option Nat
  tap_name : String
  ip_address : String
  gateway : String
deriving DecidableEq

/-- External effects of VM teardown: management quit, signals, TAP deletion,
file unlinks. -/
inductive VmEffect where
  | qmpQuit (socketPath : String)
  | sigterm (pid : Nat)
  | sigkill (pid : Nat)
  | deleteTap (tap : String)
  | unlink (path : String)
deriving DecidableEq

/-- VM identifier derived from a task id, the `format!("vm-...")` of
`create_task` and `delete_task`. -/
def vmIdOf (id : Nat) : String := "vm-" ++ toString id

/-- Path of the per-VM rootfs copy removed by `stop_vm`. -/
def rootfsCopyPath (volumesDir : String) (taskId : Nat) : String :=
  volumesDir ++ "/" ++ toString taskId ++ "-rootfs.ext4"

/-- `VmManager::stop_vm` in `src/api/src/qemu.rs` (lines 595-639): the
VmInstance is removed from the map first; when one was present, a QMP quit is
attempted, on QMP failure the process is signalled with SIGTERM then SIGKILL,
the TAP device is deleted and the socket, volume, log, pid-file and rootfs-copy
files are unlinked, all best-effort; when no VmInstance was tracked the call is
a no-op returning Ok. -/
def stop_vm (qmpQuitOk : Bool) (volumesDir : String)
    (vms : List (String × VmInfoQ)) (vmId : String) :
    List (String × VmInfoQ) × List VmEffect :=
  match alookup vms vmId with
  | none => (vms, [])
  | some info =>
      (aerase vms vmId,
        VmEffect.qmpQuit info.qmp_socket_path ::
        ((if qmpQuitOk then []
          else
            match info.pid with
            | some p => [VmEffect.sigterm p, VmEffect.sigkill p]
            | none => []) ++
         [VmEffect.deleteTap info.tap_name,
          VmEffect.unlink info.qmp_socket_path,
          VmEffect.unlink info.volume_path,
          VmEffect.unlink info.log_path,
          VmEffect.unlink info.pid_file,
          VmEffect.unlink (rootfsCopyPath volumesDir info.task_id)]))

/-- Process-wide orchestrator state: the task table, the fanout registry and the
VM manager map. -/
structure SysState where
  db : List (Nat × TaskRow)
  channels : List (Nat × TaskChannel)
  vms : List (String × VmInfoQ)
deriving DecidableEq

/-- `delete_task` in `src/api/src/handlers.rs` (lines 269-289): look the task
up (404 when absent), stop its VM when it has a vm_id (stop errors are logged,
not fatal), set the status to Terminated with a null vm_id parameter, remove
the fanout channel, and return 204 with the list of external effects
performed. -/
def delete_task (qmpQuitOk : Bool) (volumesDir : String) (s : SysState)
    (id : Nat) (now : Nat) : Except ApiErrorM (SysState × List VmEffect) :=
  match alookup s.db id with
  | none => Except.error (ApiErrorM.taskNotFound (toString id))
  | some row =>
      let r :=
        match row.vm_id with
        | some vmId => stop_vm qmpQuitOk volumesDir s.vms vmId
        | none => (s.vms, [])
      match update_task_status s.db id TaskStatus.terminated none now with
      | Except.error e => Except.error e
      | Except.ok (_, db2) =>
          Except.ok ({ db := db2, channels := aerase s.channels id, vms := r.1 }, r.2)

theorem updateRowStatus_terminated_fix (v : TaskRow) (n1 n2 : Nat) :
    updateRowStatus (updateRowStatus v TaskStatus.terminated none n1)
        TaskStatus.terminated none n2
      = updateRowStatus v TaskStatus.terminated none n1 := by
  simp [updateRowStatus]

theorem stop_vm_absent (q : Bool) (vd : String) (vms : List (String × VmInfoQ))
    (vmId : String) (h : alookup vms vmId = none) :
    stop_vm q vd vms vmId = (vms, []) := by
  simp [stop_vm, h]

theorem stop_vm_clears (q : Bool) (vd : String) (vms : List (String × VmInfoQ))
    (vmId : String) : alookup (stop_vm q vd vms vmId).1 vmId = none := by
  cases hv : alookup vms vmId with
  | none => simp [stop_vm, hv]
  | some info => simp [stop_vm, hv, alookup_aerase]

/-- Claim C3 (confirmed): `delete_task` is idempotent.  When the task row exists
and carries `vm_id = vm-<id>` (as `create_task` establishes), the first call
succeeds with some list of external effects; calling it again on the
already-deleted task succeeds with 204, performs no external effects and leaves
the system state exactly as after the first call; and after any such
`delete_task(id)` the fanout registry has no channel for `id` and the VM
manager's map has no VmInstance under `vm-<id>`. -/
theorem delete_task_idempotent (q1 q2 : Bool) (vd : String) (s : SysState)
    (id n1 n2 : Nat) (row : TaskRow)
    (h1 : alookup s.db id = some row)
    (h2 : row.vm_id = some (vmIdOf id)) :
    ∃ s1 effs1,
      delete_task q1 vd s id n1 = Except.ok (s1, effs1) ∧
      delete_task q2 vd s1 id n2 = Except.ok (s1, []) ∧
      alookup s1.channels id = none ∧
      alookup s1.vms (vmIdOf id) = none := by
  refine ⟨{ db := aupdate s.db id (fun r => updateRowStatus r TaskStatus.terminated none n1),
            channels := aerase s.channels id,
            vms := (stop_vm q1 vd s.vms (vmIdOf id)).1 },
          (stop_vm q1 vd s.vms (vmIdOf id)).2, ?_, ?_, ?_, ?_⟩
  · simp only [delete_task, update_task_status, h1, h2]
  · have hlook1 : alookup
        (aupdate s.db id (fun r => updateRowStatus r TaskStatus.terminated none n1)) id
        = some (updateRowStatus row TaskStatus.terminated none n1) := by
      rw [alookup_aupdate, h1]; rfl
    have hvm1 : (updateRowStatus row TaskStatus.terminated none n1).vm_id
        = some (vmIdOf id) := h2
    have hstop2 : stop_vm q2 vd (stop_vm q1 vd s.vms (vmIdOf id)).1 (vmIdOf id)
        = ((stop_vm q1 vd s.vms (vmIdOf id)).1, []) :=
      stop_vm_absent q2 vd _ _ (stop_vm_clears q1 vd s.vms (vmIdOf id))
    simp only [delete_task, update_task_status, hlook1, hvm1, hstop2]
    rw [aupdate_twice _ _ _ _ (fun v => updateRowStatus_terminated_fix v n1 n2),
      aerase_aerase]
  · exact alookup_aerase s.channels id
  · exact stop_vm_clears q1 vd s.vms (vmIdOf id)

/-- Claim C9 (confirmed): `update_task_status` called with a null vm_id
parameter leaves the stored vm_id unchanged (the SQL coalesces the parameter
with the existing column); started_at is preserved whenever it is already set
or the new status is not Running, and is set only on the first transition to
Running; consequently, after `delete_task` the Terminated task row still
carries the vm_id it had before deletion. -/
theorem update_task_status_vm_id_frame (row : TaskRow) (st : TaskStatus)
    (vmArg : Option String) (now : Nat) (q : Bool) (vd : String) (s : SysState)
    (id : Nat) (h1 : alookup s.db id = some row) :
    (updateRowStatus row st none now).vm_id = row.vm_id ∧
    (∀ t, row.started_at = some t →
      (updateRowStatus row st vmArg now).started_at = some t) ∧
    (st ≠ TaskStatus.running →
      (updateRowStatus row st vmArg now).started_at = row.started_at) ∧
    (st = TaskStatus.running → row.started_at = none →
      (updateRowStatus row st vmArg now).started_at = some now) ∧
    (∃ s1 effs, delete_task q vd s id now = Except.ok (s1, effs) ∧
      alookup s1.db id = some (updateRowStatus row TaskStatus.terminated none now) ∧
      (updateRowStatus row TaskStatus.terminated none now).status = TaskStatus.terminated ∧
      (updateRowStatus row TaskStatus.terminated none now).vm_id = row.vm_id ∧
      (updateRowStatus row TaskStatus.terminated none now).started_at = row.started_at) := by
  refine ⟨rfl, ?_, ?_, ?_, ?_⟩
  · intro t ht
    simp [updateRowStatus, ht]
  · intro h
    simp [updateRowStatus, h]
  · intro h h0
    simp [updateRowStatus, h, h0]
  · have hlook : alookup
        (aupdate s.db id (fun r => updateRowStatus r TaskStatus.terminated none now)) id
        = some (updateRowStatus row TaskStatus.terminated none now) := by
      rw [alookup_aupdate, h1]; rfl
    have hstarted : (updateRowStatus row TaskStatus.terminated none now).started_at
        = row.started_at := by
      simp [updateRowStatus]
    cases hvm : row.vm_id with
    | none =>
      refine ⟨{ db := aupdate s.db id
                  (fun r => updateRowStatus r TaskStatus.terminated none now),
                channels := aerase s.channels id, vms := s.vms }, [], ?_, hlook, rfl, hvm,
              hstarted⟩
      simp only [delete_task, update_task_status, h1, hvm]
    | some vmId =>
      refine ⟨{ db := aupdate s.db id
                  (fun r => updateRowStatus r TaskStatus.terminated none now),
                channels := aerase s.channels id,
                vms := (stop_vm q vd s.vms vmId).1 },
              (stop_vm q vd s.vms vmId).2, ?_, hlook, rfl, hvm, hstarted⟩
      simp only [delete_task, update_task_status, h1, hvm]

/-- Concrete task row for the C3 and C9 witnesses. -/
def w3Row : TaskRow :=
  { status := TaskStatus.running, vm_id := some (vmIdOf 7), started_at := some 3,
    completed_at := none, exit_code := none, error_message := none,
    ip_address := some "172.16.0.100" }

/-- Concrete VmInstance for the C3 witness. -/
def w3Info : VmInfoQ :=
  { vm_id := vmIdOf 7, task_id := 7, cid := 100, qmp_socket_path := "s/vm-7.qmp",
    volume_path := "v/7.ext4", log_path := "l/vm-7.log", pid_file := "p/vm-7.pid",
    pid := some 4242, tap_name := "tap-0000", ip_address := "172.16.0.100",
    gateway := "172.16.0.1" }

/-- Concrete orchestrator state for the C3 and C9 witnesses. -/
def w3State : SysState :=
  { db := [(7, w3Row)], channels := [(7, TaskChannel.new)],
    vms := [(vmIdOf 7, w3Info)] }

theorem delete_task_idempotent_witness :
    ∃ s1 effs1,
      delete_task true "vols" w3State 7 5 = Except.ok (s1, effs1) ∧
      delete_task false "vols" s1 7 9 = Except.ok (s1, []) ∧
      alookup s1.channels 7 = none ∧
      alookup s1.vms (vmIdOf 7) = none :=
  delete_task_idempotent true false "vols" w3State 7 5 9 w3Row rfl rfl

theorem update_task_status_vm_id_frame_witness :
    (updateRowStatus w3Row TaskStatus.terminated none 5).vm_id = w3Row.vm_id ∧
    (∀ t, w3Row.started_at = some t →
      (updateRowStatus w3Row TaskStatus.terminated (some "vm-9") 5).started_at = some t) ∧
    (TaskStatus.terminated ≠ TaskStatus.running →
      (updateRowStatus w3Row TaskStatus.terminated (some "vm-9") 5).started_at
        = w3Row.started_at) ∧
    (TaskStatus.terminated = TaskStatus.running → w3Row.started_at = none →
      (updateRowStatus w3Row TaskStatus.terminated (some "vm-9") 5).started_at = some 5) ∧
    (∃ s1 effs, delete_task true "vols" w3State 7 5 = Except.ok (s1, effs) ∧
      alookup s1.db 7 = some (updateRowStatus w3Row TaskStatus.terminated none 5) ∧
      (updateRowStatus w3Row TaskStatus.terminated none 5).status = TaskStatus.terminated ∧
      (updateRowStatus w3Row TaskStatus.terminated none 5).vm_id = w3Row.vm_id ∧
      (updateRowStatus w3Row TaskStatus.terminated none 5).started_at = w3Row.started_at) :=
  update_task_status_vm_id_frame w3Row TaskStatus.terminated (some "vm-9") 5 true "vols"
    w3State 7 rfl

end Lia
